import Mathlib

/-!
Verification of the DummyDB deployment contract and presentational UI.

The repository fragment consists of a docker-compose manifest and a
Dockerfile for a Python web service (`sql-schema-parser`) behind an
optional nginx reverse proxy, plus three presentational React
components (Home, Navbar, Footer).  This file embeds those artefacts
as Lean data and proves the properties stated about them.
-/

/-- A compose-level health-check specification
(`src/api/src/docker-compose.yml`, `healthcheck:` block).
Durations are in seconds. -/
structure Healthcheck where
  test : List String
  interval : Nat
  timeout : Nat
  retries : Nat
  startPeriod : Nat
deriving DecidableEq, Repr

/-- A service entry of `src/api/src/docker-compose.yml`. -/
structure ComposeService where
  name : String
  build : Option String
  image : Option String
  ports : List String
  environment : List String
  volumes : List String
  restart : String
  dependsOn : List String
  profiles : List String
  healthcheck : Option Healthcheck
deriving DecidableEq, Repr

/-- The `healthcheck:` block of the `sql-schema-parser` service in
`src/api/src/docker-compose.yml` (interval 30s, timeout 10s, retries 3,
start_period 40s). -/
def composeHealthcheck : Healthcheck :=
  { test := ["CMD", "curl", "-f", "http://localhost:8000/v1/health"]
  , interval := 30
  , timeout := 10
  , retries := 3
  , startPeriod := 40 }

/-- The `sql-schema-parser` service of `src/api/src/docker-compose.yml`. -/
def sqlSchemaParser : ComposeService :=
  { name := "sql-schema-parser"
  , build := some "."
  , image := none
  , ports := ["8000:8000"]
  , environment := ["PYTHONUNBUFFERED=1"]
  , volumes := ["./logs:/app/logs"]
  , restart := "unless-stopped"
  , dependsOn := []
  , profiles := []
  , healthcheck := some composeHealthcheck }

/-- The `nginx` service of `src/api/src/docker-compose.yml`. -/
def nginxService : ComposeService :=
  { name := "nginx"
  , build := none
  , image := some "nginx:alpine"
  , ports := ["80:80"]
  , environment := []
  , volumes := ["./nginx.conf:/etc/nginx/nginx.conf"]
  , restart := "unless-stopped"
  , dependsOn := ["sql-schema-parser"]
  , profiles := ["production"]
  , healthcheck := none }

/-- All services declared in `src/api/src/docker-compose.yml`. -/
def composeServices : List ComposeService := [sqlSchemaParser, nginxService]

/-- The image-level `HEALTHCHECK` instruction of `src/api/src/Dockerfile`:
`--interval=30s --timeout=30s --start-period=5s --retries=3`,
command `curl -f http://localhost:8000/v1/health || exit 1`. -/
structure DockerfileHealthcheck where
  interval : Nat
  timeout : Nat
  startPeriod : Nat
  retries : Nat
  cmd : String
deriving DecidableEq, Repr

/-- The `HEALTHCHECK` of `src/api/src/Dockerfile`. -/
def dockerfileHealthcheck : DockerfileHealthcheck :=
  { interval := 30
  , timeout := 30
  , startPeriod := 5
  , retries := 3
  , cmd := "curl -f http://localhost:8000/v1/health || exit 1" }

/-- The `EXPOSE` instruction of `src/api/src/Dockerfile`. -/
def dockerfileExpose : Nat := 8000

/-- The `CMD` instruction of `src/api/src/Dockerfile`. -/
def dockerfileCmd : List String :=
  ["uvicorn", "main:app", "--host", "0.0.0.0", "--port", "8000"]

/-- The four timing/count fields of a compose health check, as a tuple,
for comparison with the image-level configuration. -/
def Healthcheck.timing (h : Healthcheck) : Nat × Nat × Nat × Nat :=
  (h.interval, h.timeout, h.retries, h.startPeriod)

/-- The four timing/count fields of a Dockerfile health check, in the same
field order (interval, timeout, retries, start period). -/
def DockerfileHealthcheck.timing (h : DockerfileHealthcheck) : Nat × Nat × Nat × Nat :=
  (h.interval, h.timeout, h.retries, h.startPeriod)

/-- A compose `HOST:CONTAINER` port-mapping string built from the two port
numbers. -/
def hostContainerPort (host container : Nat) : String :=
  toString host ++ ":" ++ toString container

/-- A compose volume entry is a relative-host-path bind mount when its host
part (the text before the `:`) begins with `./`; compose treats a leading
`.` or `/` as a bind mount rather than a named volume. -/
def isRelativeBindMount (v : String) : Bool :=
  match v.data with
  | '.' :: '/' :: _ => true
  | _ => false

/-- C1: The compose-level healthcheck probes GET /v1/health with interval
30s, timeout 10s, 3 retries and a 40s start period; the image-level
healthcheck probes the same endpoint with interval 30s, timeout 30s, 5s
start period and 3 retries; taking the corresponding fields together the
two configurations are not equal, differing in timeout and start period. -/
theorem compose_and_image_healthchecks_inconsistent :
    sqlSchemaParser.healthcheck = some composeHealthcheck ∧
    composeHealthcheck.test = ["CMD", "curl", "-f", "http://localhost:8000/v1/health"] ∧
    composeHealthcheck.timing = (30, 10, 3, 40) ∧
    dockerfileHealthcheck.cmd = "curl -f http://localhost:8000/v1/health || exit 1" ∧
    dockerfileHealthcheck.timing = (30, 30, 3, 5) ∧
    composeHealthcheck.timing ≠ dockerfileHealthcheck.timing ∧
    composeHealthcheck.timeout ≠ dockerfileHealthcheck.timeout ∧
    composeHealthcheck.startPeriod ≠ dockerfileHealthcheck.startPeriod ∧
    composeHealthcheck.interval = dockerfileHealthcheck.interval ∧
    composeHealthcheck.retries = dockerfileHealthcheck.retries := by
  decide

/-- C7: the application service's descriptor passes the output-buffering
flag `PYTHONUNBUFFERED=1` in its environment. -/
theorem service_passes_unbuffered_flag :
    "PYTHONUNBUFFERED=1" ∈ sqlSchemaParser.environment ∧
    sqlSchemaParser.environment = ["PYTHONUNBUFFERED=1"] := by
  decide

/-- C8: the only volumes declared by the deployment are the application
service's log directory and the nginx proxy's configuration file, and both
are bind mounts of relative host paths. -/
theorem persisted_state_is_two_bind_mounts :
    sqlSchemaParser.volumes = ["./logs:/app/logs"] ∧
    nginxService.volumes = ["./nginx.conf:/etc/nginx/nginx.conf"] ∧
    (composeServices.map ComposeService.volumes).flatten =
      ["./logs:/app/logs", "./nginx.conf:/etc/nginx/nginx.conf"] ∧
    ∀ s ∈ composeServices, ∀ v ∈ s.volumes, isRelativeBindMount v = true := by
  decide

/-- Modelled from the spec: the compose orchestrator's profile-activation
rule is not part of the repository (only the manifest is); per the spec, a
service carrying a `profiles` list is "activated only under" a matching
deployment profile, while profile-less services are always created.  A
service is created when its `profiles` list is empty or mentions an active
profile. -/
def servicesCreated (active : List String) : List ComposeService :=
  composeServices.filter
    (fun s => s.profiles.isEmpty || s.profiles.any (fun p => active.contains p))

/-- C3: with the deployment profile unset only the application service is
created and the proxy is absent; with profile "production" both services
are created and the proxy depends on the application service's creation. -/
theorem profile_controls_created_services :
    (servicesCreated []).map ComposeService.name = ["sql-schema-parser"] ∧
    nginxService ∉ servicesCreated [] ∧
    (servicesCreated ["production"]).map ComposeService.name =
      ["sql-schema-parser", "nginx"] ∧
    nginxService.dependsOn = ["sql-schema-parser"] := by
  decide

/-- The URL probed by both health checks, as written in
`src/api/src/docker-compose.yml` and `src/api/src/Dockerfile`. -/
def healthURL : String := "http://localhost:8000/v1/health"

/-- Modelled from the spec: the nginx configuration file (`./nginx.conf`,
mounted by the compose manifest) is not part of the repository; per the
spec, the "proxy listens on 80 and forwards to the service", i.e. its
forwarding target is the application service. -/
def nginxForwardTarget : String := "sql-schema-parser"

/-- C5: the application service listens on 8000 internally, mapped to 8000
externally in non-proxied mode (compose `8000:8000`, Dockerfile `EXPOSE
8000` and `--port 8000`); the nginx proxy listens publicly on port 80 and
forwards to the application service. -/
theorem ports_and_forwarding :
    sqlSchemaParser.ports = [hostContainerPort 8000 8000] ∧
    dockerfileExpose = 8000 ∧
    dockerfileCmd = ["uvicorn", "main:app", "--host", "0.0.0.0",
      "--port", toString dockerfileExpose] ∧
    nginxService.ports = [hostContainerPort 80 80] ∧
    nginxForwardTarget = sqlSchemaParser.name := by
  decide

/-- C9: although the two health-check configurations disagree on timing,
both invoke `curl -f` against the identical URL
`http://localhost:8000/v1/health` with the identical retry count 3, and
the port in that URL is the port the container exposes and the port the
application process is started on. -/
theorem healthchecks_agree_on_probe :
    composeHealthcheck.test =
      ["CMD", "curl", "-f", healthURL] ∧
    dockerfileHealthcheck.cmd = "curl -f " ++ healthURL ++ " || exit 1" ∧
    composeHealthcheck.retries = 3 ∧
    dockerfileHealthcheck.retries = 3 ∧
    composeHealthcheck.retries = dockerfileHealthcheck.retries ∧
    healthURL = "http://localhost:" ++ toString dockerfileExpose ++ "/v1/health" ∧
    dockerfileCmd = ["uvicorn", "main:app", "--host", "0.0.0.0",
      "--port", toString dockerfileExpose] := by
  decide

/-! ## Orchestrator health/restart state machine

The container runtime's behaviour is not part of the repository; the
manifest only declares the policy it consumes.  The state machine below is
modelled from the spec (§9 and §4.1): states
{starting → healthy → unhealthy → restarting}, transitions triggered by
probe success/failure counts and grace-period expiry, with a restart being
an orchestrator action gated on the declared restart policy. -/

/-- Orchestrator view of a service instance (spec §9). -/
inductive OrchPhase
  | starting
  | healthy
  | unhealthy
  | restarting
deriving DecidableEq, Repr

/-- Who performs an action in the deployment: the orchestrator (container
runtime) or the application service itself. -/
inductive Actor
  | orchestrator
  | service
deriving DecidableEq, Repr

/-- The part of the service descriptor the orchestrator's restart logic
consumes: retry count and restart policy. -/
structure OrchConfig where
  retries : Nat
  restartPolicy : String
deriving DecidableEq, Repr

/-- The `sql-schema-parser` values: `retries: 3`, `restart:
unless-stopped`. -/
def orchConfigOfCompose : OrchConfig :=
  { retries := composeHealthcheck.retries
  , restartPolicy := sqlSchemaParser.restart }

/-- Orchestrator bookkeeping: current phase and the count of consecutive
probe failures observed since the last success or restart. -/
structure OrchState where
  phase : OrchPhase
  failCount : Nat
deriving DecidableEq, Repr

/-- One scheduled probe observation: whether the startup grace period has
elapsed, and whether the probe succeeded. -/
structure Tick where
  graceElapsed : Bool
  probeOk : Bool
deriving DecidableEq, Repr

/-- A probe failure observed after the grace period. -/
def failTick : Tick := { graceElapsed := true, probeOk := false }

/-- Modelled from the spec: one orchestrator reaction to a probe result
(spec §4.1, §9, glossary).  A success makes the instance healthy and
resets the failure count; a failure inside the grace period does not count
toward the restart decision; a failure after the grace period increments
the count, and when the count reaches the configured retry threshold the
orchestrator considers the instance unhealthy and — unless the restart
policy `"no"` disables restarting — triggers a restart, an action of the
orchestrator.  Returns the next state and the restart actions emitted,
tagged by their actor. -/
def orchStep (cfg : OrchConfig) (s : OrchState) (t : Tick) : OrchState × List Actor :=
  if t.probeOk then
    ({ phase := .healthy, failCount := 0 }, [])
  else if t.graceElapsed then
    if s.failCount + 1 ≥ cfg.retries then
      if cfg.restartPolicy = "no" then
        ({ phase := .unhealthy, failCount := s.failCount + 1 }, [])
      else
        ({ phase := .restarting, failCount := 0 }, [.orchestrator])
    else
      ({ phase := s.phase, failCount := s.failCount + 1 }, [])
  else
    (s, [])

/-- Run of the orchestrator over a sequence of probe observations,
accumulating the restart actions emitted. -/
def orchRun (cfg : OrchConfig) (s : OrchState) : List Tick → OrchState × List Actor
  | [] => (s, [])
  | t :: ts =>
    let p := orchStep cfg s t
    let q := orchRun cfg p.1 ts
    (q.1, p.2 ++ q.2)

/-- The fresh orchestrator state at container start. -/
def orchInit : OrchState := { phase := .starting, failCount := 0 }

theorem orchRun_append (cfg : OrchConfig) (s : OrchState) (xs ys : List Tick) :
    orchRun cfg s (xs ++ ys) =
      ((orchRun cfg (orchRun cfg s xs).1 ys).1,
       (orchRun cfg s xs).2 ++ (orchRun cfg (orchRun cfg s xs).1 ys).2) := by
  induction xs generalizing s with
  | nil => simp [orchRun]
  | cons t ts ih => simp [orchRun, ih]

theorem orchRun_actor (cfg : OrchConfig) (s : OrchState) (ts : List Tick) :
    ∀ a ∈ (orchRun cfg s ts).2, a = Actor.orchestrator := by
  induction ts generalizing s with
  | nil => simp [orchRun]
  | cons t tl ih =>
    intro a ha
    simp only [orchRun, List.mem_append] at ha
    rcases ha with ha | ha
    · unfold orchStep at ha
      split at ha <;> [skip; split at ha] <;>
        [simp at ha; (split at ha <;> [split at ha; skip] <;> simp_all); simp at ha]
    · exact ih _ a ha

theorem three_fails_restart (s : OrchState) :
    Actor.orchestrator ∈
      (orchRun orchConfigOfCompose s [failTick, failTick, failTick]).2 := by
  simp only [orchRun, orchStep, orchConfigOfCompose, failTick, composeHealthcheck,
    sqlSchemaParser]
  split_ifs <;> simp_all

/-- C2: whenever the health probe fails for the configured retry count (3
consecutive failures) after the grace period, the orchestrator — whose
declared restart policy `unless-stopped` does not disable restarting —
restarts the application service, and every restart action in any
execution is performed by the orchestrator, never by the service itself. -/
theorem orchestrator_restarts_on_probe_failures (pre post : List Tick) (s : OrchState) :
    orchConfigOfCompose.restartPolicy ≠ "no" ∧
    Actor.orchestrator ∈
      (orchRun orchConfigOfCompose s (pre ++ [failTick, failTick, failTick] ++ post)).2 ∧
    ∀ ts : List Tick, ∀ a ∈ (orchRun orchConfigOfCompose orchInit ts).2,
      a = Actor.orchestrator := by
  refine ⟨by decide, ?_, fun ts => orchRun_actor _ _ ts⟩
  rw [orchRun_append, orchRun_append]
  have h := three_fails_restart (orchRun orchConfigOfCompose s pre).1
  simp_all

/-- A probe observation that does not count toward a restart: either the
probe succeeded or the grace period had not yet elapsed. -/
def cleanTick (t : Tick) : Bool := t.probeOk || !t.graceElapsed

theorem orchRun_clean (ts : List Tick) (h : ∀ t ∈ ts, cleanTick t = true) :
    ∀ s : OrchState, s.failCount = 0 →
      (orchRun orchConfigOfCompose s ts).2 = [] ∧
      (orchRun orchConfigOfCompose s ts).1.failCount = 0 := by
  induction ts with
  | nil => intro s hs; simp [orchRun, hs]
  | cons t tl ih =>
    intro s hs
    have ht : cleanTick t = true := h t (List.mem_cons_self t tl)
    have htl : ∀ u ∈ tl, cleanTick u = true := fun u hu => h u (List.mem_cons_of_mem t hu)
    simp only [cleanTick, Bool.or_eq_true, Bool.not_eq_true'] at ht
    rcases ht with ht | ht
    · have hstep : orchStep orchConfigOfCompose s t =
          ({ phase := .healthy, failCount := 0 }, []) := by
        simp [orchStep, ht]
      simp only [orchRun, hstep]
      simpa using ih htl { phase := .healthy, failCount := 0 } rfl
    · by_cases hok : t.probeOk = true
      · have hstep : orchStep orchConfigOfCompose s t =
            ({ phase := .healthy, failCount := 0 }, []) := by
          simp [orchStep, hok]
        simp only [orchRun, hstep]
        simpa using ih htl { phase := .healthy, failCount := 0 } rfl
      · have hstep : orchStep orchConfigOfCompose s t = (s, []) := by
          simp [orchStep, hok, ht]
        simp only [orchRun, hstep]
        simpa using ih htl s hs

theorem three_fails_from_zero (s : OrchState) (hs : s.failCount = 0) :
    orchRun orchConfigOfCompose s [failTick, failTick, failTick] =
      ({ phase := .restarting, failCount := 0 }, [Actor.orchestrator]) := by
  obtain ⟨p, c⟩ := s
  simp only [OrchState.failCount] at hs
  subst hs
  rfl

/-- C6: in an execution whose only probe failures after the grace period
are exactly three consecutive ones, the orchestrator — whose declared
restart policy `unless-stopped` does not disable restarting — restarts the
application service exactly once, not repeatedly. -/
theorem three_failures_restart_exactly_once (pre post : List Tick)
    (hpre : ∀ t ∈ pre, cleanTick t = true) (hpost : ∀ t ∈ post, cleanTick t = true) :
    orchConfigOfCompose.restartPolicy ≠ "no" ∧
    (orchRun orchConfigOfCompose orchInit
        (pre ++ [failTick, failTick, failTick] ++ post)).2 = [Actor.orchestrator] := by
  refine ⟨by decide, ?_⟩
  rw [orchRun_append, orchRun_append]
  have h1 := orchRun_clean pre hpre orchInit rfl
  have h2 := three_fails_from_zero (orchRun orchConfigOfCompose orchInit pre).1 h1.2
  have h3 := orchRun_clean post hpost
    (orchRun orchConfigOfCompose (orchRun orchConfigOfCompose orchInit pre).1
      [failTick, failTick, failTick]).1
  rw [h2] at h3 ⊢
  simp [h1.1, (h3 rfl).1]

/-- Witness for C6 at a concrete execution: a healthy probe, then three
failures after grace, then a healthy probe, yields exactly one
orchestrator restart. -/
theorem three_failures_restart_exactly_once_witness :
    orchConfigOfCompose.restartPolicy ≠ "no" ∧
    (orchRun orchConfigOfCompose orchInit
        ([{ graceElapsed := true, probeOk := true }] ++
          [failTick, failTick, failTick] ++
          [{ graceElapsed := true, probeOk := true }])).2 = [Actor.orchestrator] :=
  three_failures_restart_exactly_once
    [{ graceElapsed := true, probeOk := true }]
    [{ graceElapsed := true, probeOk := true }]
    (by decide) (by decide)

/-- Witness for C2 at a concrete execution: with no preceding or following
ticks and the fresh start state, three consecutive post-grace failures
yield an orchestrator restart. -/
theorem orchestrator_restarts_on_probe_failures_witness :
    Actor.orchestrator ∈
      (orchRun orchConfigOfCompose orchInit
        ([] ++ [failTick, failTick, failTick] ++ [])).2 :=
  (orchestrator_restarts_on_probe_failures [] [] orchInit).2.1

/-! ## Deployment ordering

Modelled from the spec (§4.2, §5): the proxy "must wait for the
application service container to be created before starting (ordering
dependency), though created does not imply healthy — no explicit
wait-for-healthy gate is specified, only container-start ordering".  The
step relation below is the orchestrator's container lifecycle; the only
gate on starting nginx is the existence of the application-service
container (per `nginx.depends_on: [sql-schema-parser]`). -/

/-- Observable deployment state: which lifecycle milestones each container
has reached. -/
structure DeployState where
  appCreated : Bool
  appStarted : Bool
  appHealthy : Bool
  nginxCreated : Bool
  nginxStarted : Bool
deriving DecidableEq, Repr

/-- Nothing has been created yet. -/
def deployInit : DeployState :=
  { appCreated := false, appStarted := false, appHealthy := false
  , nginxCreated := false, nginxStarted := false }

/-- Modelled from the spec: one orchestrator action on the deployment.
Creating the application container is unconditional; starting it and
marking it healthy follow its own lifecycle; creating the nginx container
is unconditional, but starting nginx requires the application-service
container to have been created — and nothing more: no healthiness
condition appears in the dependency. -/
inductive DeployStep : DeployState → DeployState → Prop
  | createApp (s : DeployState) :
      DeployStep s { s with appCreated := true }
  | startApp (s : DeployState) (h : s.appCreated = true) :
      DeployStep s { s with appStarted := true }
  | markAppHealthy (s : DeployState) (h : s.appStarted = true) :
      DeployStep s { s with appHealthy := true }
  | createNginx (s : DeployState) :
      DeployStep s { s with nginxCreated := true }
  | startNginx (s : DeployState) (hc : s.nginxCreated = true)
      (hd : s.appCreated = true) :
      DeployStep s { s with nginxStarted := true }

/-- States the orchestrator can reach from the empty deployment. -/
inductive DeployReachable : DeployState → Prop
  | init : DeployReachable deployInit
  | step {s s' : DeployState} :
      DeployReachable s → DeployStep s s' → DeployReachable s'

/-- The deployment after only the application container has been created. -/
def deployAppCreated : DeployState := { deployInit with appCreated := true }

/-- Both containers created, neither started. -/
def deployBothCreated : DeployState := { deployAppCreated with nginxCreated := true }

/-- Nginx started while the application service has not even been started:
the state witnessing the absence of a wait-for-healthy gate. -/
def deployNginxStartedEarly : DeployState :=
  { deployBothCreated with nginxStarted := true }

/-- C4: in every execution of the deployment step relation the nginx proxy
is started only after the application-service container has been created,
but the dependency gates only on creation: there is a reachable state in
which nginx has started while the application service is not healthy (and
was never even started). -/
theorem nginx_waits_for_creation_not_health :
    (∀ s : DeployState, DeployReachable s →
        s.nginxStarted = true → s.appCreated = true) ∧
    (∃ s : DeployState, DeployReachable s ∧
        s.nginxStarted = true ∧ s.appHealthy = false ∧ s.appStarted = false) := by
  constructor
  · intro s hs
    induction hs with
    | init => simp [deployInit]
    | step hr hstep ih =>
      cases hstep <;> simp_all
  · refine ⟨deployNginxStartedEarly, ?_, rfl, rfl, rfl⟩
    have h1 : DeployReachable deployAppCreated :=
      DeployReachable.step DeployReachable.init (DeployStep.createApp deployInit)
    have h2 : DeployReachable deployBothCreated :=
      DeployReachable.step h1 (DeployStep.createNginx deployAppCreated)
    exact DeployReachable.step h2 (DeployStep.startNginx deployBothCreated rfl rfl)

/-! ## Presentational components

Shallow embedding of the React components `Home`
(`src/unnamed/part_000`), `Navbar` (`src/unnamed/part_001`) and `Footer`
(`src/ui/components/Footer/Footer.tsx`).  Rendered markup is a tree of
elements; a render happens at some ambient clock time, modelled as the
`JsDate` passed to each component — `new Date().getFullYear()` reads its
`year` field. -/

/-- Rendered markup: an element with tag, attributes and children, or a
text node. -/
inductive Node
  | el (tag : String) (attrs : List (String × String)) (children : List Node)
  | text (s : String)

/-- The ambient date at render time; `getFullYear` is the only accessor
the components use. -/
structure JsDate where
  year : Nat
  month : Nat
  day : Nat
deriving DecidableEq, Repr

/-- `Date.prototype.getFullYear`. -/
def JsDate.getFullYear (d : JsDate) : Nat := d.year

/-- Modelled from the spec: the `Button` component
(`components/ui/button`) is not in the repository; per spec §9 the
presentational components are "stateless rendering functions with no
invariants beyond accepting fixed inputs and producing markup", so it is a
pure function of its props and children. -/
def Button (variant size : String) (children : List Node) : Node :=
  Node.el "button" [("variant", variant), ("size", size)] children

/-- Modelled from the spec: the `ModeToggle` component
(`components/ModeToggle`) is not in the repository; per spec §9 it is a
stateless rendering function with fixed inputs, hence constant markup. -/
def ModeToggle : Node :=
  Node.el "mode-toggle" [] []

/-- Modelled from the spec: the `GitBranch` icon (`lucide-react`) is not
in the repository; a stateless rendering function of its `size` prop. -/
def GitBranch (size : Nat) : Node :=
  Node.el "svg" [("icon", "git-branch"), ("size", toString size)] []

/-- Modelled from the spec: `Link` (`next/link`) is not in the
repository; a stateless rendering function of its props and children. -/
def Link (href target rel : String) (children : List Node) : Node :=
  Node.el "a" [("href", href), ("target", target), ("rel", rel)] children

/-- The copyright line rendered by Home's inline footer and by Footer:
`&copy; {new Date().getFullYear()} DummyDB. All rights reserved.` -/
def copyrightText (now : JsDate) : String :=
  "© " ++ toString now.getFullYear ++ " DummyDB. All rights reserved."

/-- The `Navbar` component of `src/unnamed/part_001`.  It takes the
ambient date like every render but never reads it. -/
def Navbar (_now : JsDate) : Node :=
  Node.el "nav"
    [("className", "w-full flex items-center justify-between p-6 sm:px-12 border-b border-border bg-background/80 backdrop-blur sticky top-0 z-10")]
    [ Node.el "span"
        [("className", "text-2xl font-bold tracking-tight select-none")]
        [Node.text "DummyDB"]
    , Node.el "div" [("className", "flex items-center gap-4")]
        [ Button "default" "default" [Node.text "Get Started"]
        , Button "outline" "default" [Node.text "Docs"]
        , ModeToggle ] ]

/-- The `Home` page of `src/unnamed/part_000`. -/
def Home (now : JsDate) : Node :=
  Node.el "div"
    [("className", "font-sans min-h-screen flex flex-col bg-background text-foreground")]
    [ Navbar now
    , Node.el "main"
        [("className", "flex flex-1 flex-col items-center justify-center text-center gap-8 px-4")]
        [ Node.el "h1"
            [("className", "text-4xl sm:text-6xl font-bold tracking-tight mb-2")]
            [Node.text "Generate Fake Data Instantly"]
        , Node.el "p"
            [("className", "text-lg sm:text-2xl max-w-xl text-muted-foreground mb-6")]
            [Node.text "Effortlessly create realistic mock data for SQL, NoSQL, and Graph databases. Perfect for testing, prototyping, and demos."]
        , Button "default" "lg" [Node.text "Get Started"] ]
    , Node.el "footer"
        [("className", "w-full flex justify-center items-center py-4 text-xs text-muted-foreground border-t border-border mt-8")]
        [Node.text (copyrightText now)] ]

/-- The `Footer` component of `src/ui/components/Footer/Footer.tsx`. -/
def Footer (now : JsDate) : Node :=
  Node.el "footer"
    [("className", "w-full flex flex-col sm:flex-row justify-between items-center gap-2 py-4 px-8 text-xs text-muted-foreground border-t border-border mt-8")]
    [ Node.el "span" [] [Node.text (copyrightText now)]
    , Link "https://github.com/ghoshsoham71/DummyDB" "_blank" "noopener noreferrer"
        [ Button "outline" "sm" [GitBranch 18, Node.text "GitHub"] ] ]

/-- C10: Home, Navbar and Footer are deterministic functions of the
current year: two renders at dates with the same `getFullYear` produce
identical markup for Home and Footer, and Navbar, which never reads the
date, produces identical markup at any two render dates. -/
theorem ui_deterministic_in_year (d1 d2 e1 e2 : JsDate)
    (h : d1.getFullYear = d2.getFullYear) :
    Home d1 = Home d2 ∧ Footer d1 = Footer d2 ∧ Navbar e1 = Navbar e2 := by
  refine ⟨?_, ?_, rfl⟩ <;> simp [Home, Footer, Navbar, copyrightText, h]

/-- Witness for C10: renders on New Year's Day and New Year's Eve of 2026
agree for Home and Footer, and Navbar renders identically across years. -/
theorem ui_deterministic_in_year_witness :
    Home ⟨2026, 1, 1⟩ = Home ⟨2026, 12, 31⟩ ∧
    Footer ⟨2026, 1, 1⟩ = Footer ⟨2026, 12, 31⟩ ∧
    Navbar ⟨2025, 6, 15⟩ = Navbar ⟨2026, 1, 1⟩ :=
  ui_deterministic_in_year ⟨2026, 1, 1⟩ ⟨2026, 12, 31⟩ ⟨2025, 6, 15⟩ ⟨2026, 1, 1⟩ rfl
